import Mathlib

/-!
Shallow embedding of the voice segmentation and transport pipeline of the
workflow-use browser extension, and a verification of the stated properties
of its segmenter, transport and correlator.

Sources embedded:
  - `extension/src/voice/voice_recorder.ts`: the `VoiceRecorder` class and the
    VAD-equipped `VoiceProcessor` class that follows it in the same file
    (silence detection, segment finalization, `sendAudioToServer` with the
    `audio_segment` wire shape, reconnect logic).
  - `extension/src/voice/voice_processor.ts`: the plain `VoiceProcessor`
    (whole-recording send path with the `audio` wire shape, reconnect logic,
    `startRecording` guard).
Timestamps (`Date.now()`) are modelled as integers in milliseconds; audio
levels are modelled as rationals; a `Blob` is modelled by its size, MIME type
and an opaque payload string standing for the base64-encoded bytes that
`FileReader.readAsDataURL` produces.
-/

namespace VoiceSpec

/-- Silence level threshold from `voice_recorder.ts`: `silenceThreshold = 0.01`. -/
def silenceThreshold : ℚ := 1 / 100

/-- Silence duration before a segment is finalized, `silenceDuration = 1500` ms. -/
def silenceDuration : Int := 1500

/-- Minimum recording duration for a segment, `minRecordingDuration = 500` ms. -/
def minRecordingDuration : Int := 500

/-- Reconnect cap from both processor classes: `maxReconnectAttempts = 5`. -/
def maxReconnectAttempts : Nat := 5

/-- Minimum blob size used in the size checks, 8192 bytes. -/
def minSegmentSizeBytes : Nat := 8192

/-- A browser `Blob` as the pipeline observes it: byte size, MIME type and the
base64 payload a `FileReader` would extract from it. -/
structure Blob where
  size : Nat
  mimeType : String
  payload : String
deriving Repr, DecidableEq

/-- Occurrence of `pat` as a contiguous sublist of `hay`: `pat` is a prefix
of some suffix of `hay`. -/
def hasSubList : List Char → List Char → Bool
  | [], pat => pat.isEmpty
  | hay@(_ :: rest), pat => List.isPrefixOf pat hay || hasSubList rest pat

/-- JavaScript `String.prototype.includes`, on the underlying character
lists. -/
def includesStr (s pat : String) : Bool :=
  hasSubList s.toList pat.toList

/-- `detectAudioFormat` from both processor classes: maps a MIME type to a
format tag by substring tests, in source order. -/
def detectAudioFormat (mimeType : String) : String :=
  if includesStr mimeType "wav" then "wav"
  else if includesStr mimeType "mp4" then "mp4"
  else if includesStr mimeType "ogg" then "ogg"
  else if includesStr mimeType "webm" then "webm"
  else "unknown"

/-- One outbound JSON message. Optional fields model JSON keys that one of the
two senders omits (`JSON.stringify` drops `undefined`-valued keys). -/
structure WireMessage where
  type : String
  data : String
  timestamp : Int
  voiceStartTime : Option Int
  voiceEndTime : Option Int
  size : Nat
  mimeType : String
  format : String
  isSegment : Option Bool
deriving Repr, DecidableEq

/-- Failure modes of a send: the not-connected early return, and the
too-small early return of the plain processor. -/
inductive SendError where
  | notConnected
  | tooSmall
deriving Repr, DecidableEq

/-- Message built by `sendAudioToServer` of the VAD processor in
`voice_recorder.ts` (lines 406-434): `type: "audio_segment"`, timestamp is
`voiceStartTime || Date.now()` (the JS falsy test makes `0` fall back to the
send time), `voiceEndTime: Date.now()`, `isSegment: true`. `now` is the value
of `Date.now()` when the `FileReader` callback builds the message. -/
def segSendMessage (blob : Blob) (voiceStartTime : Option Int) (now : Int) : WireMessage :=
  { type := "audio_segment"
    data := blob.payload
    timestamp :=
      match voiceStartTime with
      | some t => if t = 0 then now else t
      | none => now
    voiceStartTime := voiceStartTime
    voiceEndTime := some now
    size := blob.size
    mimeType := blob.mimeType
    format := detectAudioFormat blob.mimeType
    isSegment := some true }

/-- The VAD processor's `sendAudioToServer`: fails fast when the websocket is
absent or not connected, otherwise emits the `audio_segment` message. -/
def sendAudioToServerSeg (connected : Bool) (blob : Blob) (voiceStartTime : Option Int)
    (now : Int) : Except SendError WireMessage :=
  if connected then Except.ok (segSendMessage blob voiceStartTime now)
  else Except.error SendError.notConnected

/-- Message built by `sendAudioToServer` of the plain processor in
`voice_processor.ts` (lines 169-218): `type: "audio"`, timestamp is the send
time, and no `voiceStartTime`, `voiceEndTime` or `isSegment` keys. -/
def plainSendMessage (blob : Blob) (now : Int) : WireMessage :=
  { type := "audio"
    data := blob.payload
    timestamp := now
    voiceStartTime := none
    voiceEndTime := none
    size := blob.size
    mimeType := blob.mimeType
    format := detectAudioFormat blob.mimeType
    isSegment := none }

/-- The plain processor's `sendAudioToServer`: not-connected early return,
then the `size < 8192` early return, then the send. -/
def sendAudioToServerPlain (connected : Bool) (blob : Blob) (now : Int) :
    Except SendError WireMessage :=
  if ¬ connected then Except.error SendError.notConnected
  else if blob.size < minSegmentSizeBytes then Except.error SendError.tooSmall
  else Except.ok (plainSendMessage blob now)

/-- The spec's outbound wire shape for a segment: the message is typed
`audio_segment`, carries both voice time bounds, and is flagged
`isSegment: true`. -/
def hasSegmentShape (m : WireMessage) : Bool :=
  m.type == "audio_segment" && m.voiceStartTime.isSome && m.voiceEndTime.isSome
    && m.isSegment == some true

/-- Mutable fields of the VAD processor that `sendCurrentSegment` reads and
writes. `currentSegment` models `recorder.getCurrentSegment()`: the audio
accumulated since the last cleared segment, `none` when nothing is buffered.
`silenceTimerPending` models `silenceTimer != null`. -/
structure SegState where
  isProcessingSegment : Bool
  lastSoundTime : Int
  silenceTimerPending : Bool
  currentSegment : Option Blob
deriving Repr, DecidableEq

/-- Result of one `sendCurrentSegment` call: the updated state and the wire
message that went out, if any. -/
structure SegOutcome where
  state : SegState
  sent : Option WireMessage
deriving Repr, DecidableEq

/-- `VoiceProcessor.sendCurrentSegment` from `voice_recorder.ts` (lines
347-379). Re-entrancy guard first; then the blob is fetched, the `size > 8192`
check and the `recordingDuration >= minRecordingDuration` check gate the send;
`clearCurrentSegment` runs only in the send branch (the too-short branch logs
"keeping for next segment" and keeps the buffer); the `finally` block resets
`isProcessingSegment` and `silenceTimer`. `now` is `Date.now()` at the call. -/
def sendCurrentSegment (st : SegState) (connected : Bool) (now : Int) : SegOutcome :=
  if st.isProcessingSegment then { state := st, sent := none }
  else
    let finalize : SegState → SegState := fun s =>
      { s with isProcessingSegment := false, silenceTimerPending := false }
    match st.currentSegment with
    | none => { state := finalize st, sent := none }
    | some blob =>
      if minSegmentSizeBytes < blob.size then
        let recordingDuration : Int := now - st.lastSoundTime + silenceDuration
        if minRecordingDuration ≤ recordingDuration then
          let voiceStartTime : Int := st.lastSoundTime - recordingDuration + silenceDuration
          match sendAudioToServerSeg connected blob (some voiceStartTime) now with
          | Except.ok msg =>
            { state := finalize { st with currentSegment := none }, sent := some msg }
          | Except.error _ =>
            { state := finalize { st with currentSegment := none }, sent := none }
        else { state := finalize st, sent := none }
      else { state := finalize st, sent := none }

/-- Connection-level fields shared by both processor classes. -/
structure TransportState where
  reconnectAttempts : Nat
  isConnected : Bool
deriving Repr, DecidableEq

/-- Result of one `attemptReconnect` call: the updated state, the delay of the
`setTimeout` that schedules `reconnectWebSocket` (if one was scheduled), and
whether the max-attempts error branch was taken. -/
structure ReconnectOutcome where
  state : TransportState
  scheduledDelay : Option Nat
  fatal : Bool
deriving Repr, DecidableEq

/-- `attemptReconnect` (identical in both classes): below the cap, increment
the counter and schedule a reconnect after `2000 * reconnectAttempts` ms;
at the cap, report the fatal max-attempts failure and schedule nothing. -/
def attemptReconnect (st : TransportState) : ReconnectOutcome :=
  if st.reconnectAttempts < maxReconnectAttempts then
    let n := st.reconnectAttempts + 1
    { state := { st with reconnectAttempts := n }
      scheduledDelay := some (2000 * n)
      fatal := false }
  else { state := st, scheduledDelay := none, fatal := true }

/-- The `onopen` handler installed by `setupWebSocketHandlers`: marks the
connection up and resets the attempt counter to zero. -/
def onOpen (st : TransportState) : TransportState :=
  { st with isConnected := true, reconnectAttempts := 0 }

/-- The `onclose` handler: marks the connection down, then calls
`attemptReconnect`. -/
def onClose (st : TransportState) : ReconnectOutcome :=
  attemptReconnect { st with isConnected := false }

/-- Trace of the reconnect loop when every reconnection attempt fails: each
scheduled reconnect produces a socket whose failure fires `onclose`, which
calls `attemptReconnect` again; the fatal branch creates no socket, so the
loop ends there. `fuel` bounds the recursion. -/
def failTrace : Nat → TransportState → List ReconnectOutcome
  | 0, _ => []
  | fuel + 1, st =>
    let o := onClose st
    o :: (match o.scheduledDelay with
          | some _ => failTrace fuel o.state
          | none => [])

/-- Transport-facing state of the VAD processor's send path: the connection
flag together with the log of messages that actually went out on the wire. -/
structure ProcSendState where
  isConnected : Bool
  sentMessages : List WireMessage
deriving Repr, DecidableEq

/-- One send through the VAD processor's `sendAudioToServer`, tracking the
outbound log: the disconnected early return sends nothing and buffers nothing
(the state is returned unchanged). -/
def processorSend (st : ProcSendState) (blob : Blob) (voiceStartTime : Option Int)
    (now : Int) : ProcSendState × Except SendError Unit :=
  match sendAudioToServerSeg st.isConnected blob voiceStartTime now with
  | Except.ok msg => ({ st with sentMessages := st.sentMessages ++ [msg] }, Except.ok ())
  | Except.error e => (st, Except.error e)

/-- State read and written by the `checkAudioLevel` closure of
`startVADMonitoring`. -/
structure VadState where
  lastSoundTime : Int
  silenceTimerPending : Bool
  isProcessingSegment : Bool
deriving Repr, DecidableEq

/-- One sample delivered to `checkAudioLevel`: the value of `Date.now()` at
the callback and the normalized level computed from the analyser data. -/
structure AudioSample where
  time : Int
  level : ℚ
deriving Repr, DecidableEq

/-- One `checkAudioLevel` step from `voice_recorder.ts` (lines 305-344).
Voiced sample: refresh `lastSoundTime` and cancel any pending silence timer.
Silent sample: if silence has lasted longer than `silenceDuration` and no
timer is pending and no segment is being processed, schedule the segment send
(set the timer); otherwise nothing changes. -/
def checkAudioLevel (st : VadState) (s : AudioSample) : VadState :=
  if silenceThreshold < s.level then
    { st with lastSoundTime := s.time, silenceTimerPending := false }
  else if silenceDuration < s.time - st.lastSoundTime
      ∧ st.silenceTimerPending = false ∧ st.isProcessingSegment = false then
    { st with silenceTimerPending := true }
  else st

/-- Run `checkAudioLevel` over a sample list, counting how many times a
segment emission gets scheduled (the silence timer transitions from unset to
set). -/
def vadRun : VadState → List AudioSample → VadState × Nat
  | st, [] => (st, 0)
  | st, s :: rest =>
    let st2 := checkAudioLevel st s
    let r := vadRun st2 rest
    let inc : Nat :=
      if st.silenceTimerPending = false ∧ st2.silenceTimerPending = true then 1 else 0
    (r.1, inc + r.2)

/-- Along a run, every silent sample arrives within `silenceDuration` of the
last sound: the "brief pause" hypothesis, computed against the evolving
state exactly as `checkAudioLevel` would. -/
def gapsShort : VadState → List AudioSample → Bool
  | _, [] => true
  | st, s :: rest =>
    (if s.level ≤ silenceThreshold then decide (s.time - st.lastSoundTime ≤ silenceDuration)
     else true)
      && gapsShort (checkAudioLevel st s) rest

/-- The audio-energy computation of `checkAudioLevel` (lines 308-312): the
mean of the 8-bit frequency-bin values, divided by 255. -/
def computeNormalizedLevel (bins : List Nat) : ℚ :=
  (((bins.sum : ℚ) / (bins.length : ℚ)) / 255)

/-- State touched by the plain processor's `startRecording`. -/
structure ProcessorState where
  isConnected : Bool
  recorderIsRecording : Bool
deriving Repr, DecidableEq

/-- Result of `startRecording`: updated state, whether
`recorder.startRecording()` was invoked, and the thrown error message if any. -/
structure StartOutcome where
  state : ProcessorState
  recorderStartInvoked : Bool
  thrown : Option String
deriving Repr, DecidableEq

/-- `VoiceProcessor.startRecording` from `voice_processor.ts` (lines 125-137):
throws when not connected, before touching the recorder; otherwise starts the
recorder (the successful `getUserMedia` path). -/
def startRecording (st : ProcessorState) : StartOutcome :=
  if st.isConnected = false then
    { state := st, recorderStartInvoked := false
      thrown := some "WebSocket 未连接，无法开始录音" }
  else
    { state := { st with recorderIsRecording := true }
      recorderStartInvoked := true, thrown := none }

/-- Modelled from the spec: the EventCorrelator scoring rule. The correlator
implementation (`workflows/workflow_use/correlator/event_correlator.py`,
named by the design document) is not among the sources; spec section 4.4
step 4 gives `score = 1 - (abs dt / window)`, linearly decaying and clamped
to the interval from 0 to 1. -/
def correlationScore (bTime tTime window : ℚ) : ℚ :=
  max 0 (min 1 (1 - |tTime - bTime| / window))

/-- C1: a voice segment finalized by the segmenter is handed to the transport
only if the accumulated audio strictly exceeds the 8192-byte size floor and
the computed recording duration is at least `minRecordingDuration` (500 ms);
whenever `sendCurrentSegment` emits a message, both gates held. -/
theorem c1_segment_send_gated (st : SegState) (connected : Bool) (now : Int)
    (msg : WireMessage)
    (h : (sendCurrentSegment st connected now).sent = some msg) :
    ∃ blob, st.currentSegment = some blob ∧ minSegmentSizeBytes < blob.size ∧
      minRecordingDuration ≤ now - st.lastSoundTime + silenceDuration := by
  unfold sendCurrentSegment at h
  by_cases hp : st.isProcessingSegment = true
  · simp [hp] at h
  · rw [if_neg hp] at h
    cases hcs : st.currentSegment with
    | none => rw [hcs] at h; simp at h
    | some blob =>
      rw [hcs] at h
      by_cases hs : minSegmentSizeBytes < blob.size
      · by_cases hd : minRecordingDuration ≤ now - st.lastSoundTime + silenceDuration
        · exact ⟨blob, rfl, hs, hd⟩
        · simp [hs, hd] at h
      · simp [hs] at h

/-- Witness for C1: a concrete segmenter state that passes both gates and
sends, at which the theorem's hypotheses are discharged. -/
theorem c1_segment_send_gated_witness :
    ∃ blob, (SegState.mk false 0 false (some ⟨10000, "audio/webm", "zz"⟩)).currentSegment
        = some blob ∧ minSegmentSizeBytes < blob.size ∧
      minRecordingDuration ≤ (1000 : Int) - 0 + silenceDuration :=
  c1_segment_send_gated ⟨false, 0, false, some ⟨10000, "audio/webm", "zz"⟩⟩ true 1000
    (segSendMessage ⟨10000, "audio/webm", "zz"⟩ (some (-1000)) 1000) (by decide)

/-- C2 counterexample: the wire message's `voiceEndTime` is the send-time
`Date.now()`, not `now - silenceDuration` as the claim states: at send time
10000 the code emits `voiceEndTime = 10000`, while the claim demands
`10000 - 1500 = 8500`. -/
theorem c2_voiceEndTime_counterexample :
    (segSendMessage ⟨9000, "audio/webm", "d"⟩ (some 5000) 10000).voiceEndTime
      ≠ some (10000 - silenceDuration) := by decide

/-- C2 (amended): the message's timestamp equals the `voiceStartTime` the
segmenter computed (whenever it is nonzero; a zero value falls back to the
send time by the JS falsy test), and `voiceEndTime` equals the send time
itself, not the send time minus `silenceDuration`. -/
theorem c2_timestamp_anchoring (blob : Blob) (t now : Int) (ht : t ≠ 0) :
    (segSendMessage blob (some t) now).timestamp = t ∧
    (segSendMessage blob (some t) now).voiceStartTime = some t ∧
    (segSendMessage blob (some t) now).voiceEndTime = some now := by
  simp [segSendMessage, ht]

/-- Witness for the amended C2 at a concrete nonzero start time. -/
theorem c2_timestamp_anchoring_witness :
    (segSendMessage ⟨9000, "audio/webm", "d"⟩ (some 5000) 10000).timestamp = 5000 ∧
    (segSendMessage ⟨9000, "audio/webm", "d"⟩ (some 5000) 10000).voiceStartTime = some 5000 ∧
    (segSendMessage ⟨9000, "audio/webm", "d"⟩ (some 5000) 10000).voiceEndTime = some 10000 :=
  c2_timestamp_anchoring ⟨9000, "audio/webm", "d"⟩ 5000 10000 (by decide)

/-- C5 counterexample: on a finalized region whose computed duration is below
`minRecordingDuration`, the segmenter does not clear the accumulated audio —
the buffer still holds the blob afterwards (the code logs "keeping for next
segment"), contradicting the claim that the audio is cleared and not
retained. -/
theorem c5_retention_counterexample :
    (3000 : Int) - 5000 + silenceDuration < minRecordingDuration ∧
    (sendCurrentSegment ⟨false, 5000, false, some ⟨9000, "a", "d"⟩⟩ true 3000).sent = none ∧
    (sendCurrentSegment ⟨false, 5000, false, some ⟨9000, "a", "d"⟩⟩ true 3000).state.currentSegment
      = some ⟨9000, "a", "d"⟩ := by decide

/-- C5 (amended): a finalized voiced region whose duration is below the
`minRecordingDuration` floor is skipped without any error to the caller and
the segmenter returns to idle (not processing, no pending timer), but the
accumulated audio is retained for the next segment rather than cleared. -/
theorem c5_short_segment_skipped (st : SegState) (connected : Bool) (now : Int)
    (blob : Blob)
    (hproc : st.isProcessingSegment = false)
    (hblob : st.currentSegment = some blob)
    (hdur : now - st.lastSoundTime + silenceDuration < minRecordingDuration) :
    (sendCurrentSegment st connected now).sent = none ∧
    (sendCurrentSegment st connected now).state.currentSegment = some blob ∧
    (sendCurrentSegment st connected now).state.isProcessingSegment = false ∧
    (sendCurrentSegment st connected now).state.silenceTimerPending = false := by
  have hnd : ¬ minRecordingDuration ≤ now - st.lastSoundTime + silenceDuration :=
    not_le.mpr hdur
  unfold sendCurrentSegment
  by_cases hs : minSegmentSizeBytes < blob.size
  · simp [hproc, hblob, hs, hnd]
  · simp [hproc, hblob, hs]

/-- Witness for the amended C5 at a concrete too-short region. -/
theorem c5_short_segment_skipped_witness :
    (sendCurrentSegment ⟨false, 5000, false, some ⟨9000, "b", "d"⟩⟩ true 3000).sent = none ∧
    (sendCurrentSegment ⟨false, 5000, false, some ⟨9000, "b", "d"⟩⟩ true 3000).state.currentSegment
      = some ⟨9000, "b", "d"⟩ ∧
    (sendCurrentSegment ⟨false, 5000, false, some ⟨9000, "b", "d"⟩⟩ true 3000).state.isProcessingSegment
      = false ∧
    (sendCurrentSegment ⟨false, 5000, false, some ⟨9000, "b", "d"⟩⟩ true 3000).state.silenceTimerPending
      = false :=
  c5_short_segment_skipped ⟨false, 5000, false, some ⟨9000, "b", "d"⟩⟩ true 3000
    ⟨9000, "b", "d"⟩ rfl rfl (by decide)

/-- C7 counterexample: the plain processor's send path emits a message typed
`audio` that lacks the segment fields, so not every audio message the
processors send to the transcription collaborator has the `audio_segment`
shape. -/
theorem c7_plain_shape_counterexample :
    sendAudioToServerPlain true ⟨9000, "audio/webm", "d"⟩ 1000
      = Except.ok (plainSendMessage ⟨9000, "audio/webm", "d"⟩ 1000) ∧
    hasSegmentShape (plainSendMessage ⟨9000, "audio/webm", "d"⟩ 1000) = false :=
  ⟨rfl, by decide⟩

/-- C7 (amended): every message built by the VAD segmenter's send path has
exactly the outbound `audio_segment` shape (type, both voice time bounds,
`isSegment: true`, and data, size, MIME type and format taken from the blob);
the plain processor's `stopRecording` path instead sends a message typed
`audio` with no `voiceStartTime`, `voiceEndTime` or `isSegment` keys. -/
theorem c7_wire_shapes (blob : Blob) (vst now : Int) :
    hasSegmentShape (segSendMessage blob (some vst) now) = true ∧
    (segSendMessage blob (some vst) now).data = blob.payload ∧
    (segSendMessage blob (some vst) now).size = blob.size ∧
    (segSendMessage blob (some vst) now).mimeType = blob.mimeType ∧
    (segSendMessage blob (some vst) now).format = detectAudioFormat blob.mimeType ∧
    (plainSendMessage blob now).type = "audio" ∧
    (plainSendMessage blob now).timestamp = now ∧
    (plainSendMessage blob now).voiceStartTime = none ∧
    (plainSendMessage blob now).voiceEndTime = none ∧
    (plainSendMessage blob now).isSegment = none := by
  refine ⟨?_, rfl, rfl, rfl, rfl, rfl, rfl, rfl, rfl, rfl⟩
  rfl

/-- C10: when the transport is not connected, `startRecording` throws and the
recorder is never started — its state is unchanged and
`recorder.startRecording()` is not invoked. -/
theorem c10_start_requires_connection (st : ProcessorState)
    (h : st.isConnected = false) :
    startRecording st
      = { state := st, recorderStartInvoked := false
          thrown := some "WebSocket 未连接，无法开始录音" } := by
  simp [startRecording, h]

/-- Witness for C10 at a concrete disconnected state. -/
theorem c10_start_requires_connection_witness :
    startRecording ⟨false, false⟩
      = { state := ⟨false, false⟩, recorderStartInvoked := false
          thrown := some "WebSocket 未连接，无法开始录音" } :=
  c10_start_requires_connection ⟨false, false⟩ rfl

/-- C3: after an unexpected closure, reconnection attempt `n` (for any
`1 ≤ n ≤ 5`) is scheduled after `2000 * n` ms and increments the counter to
`n`; at the cap no further attempt is scheduled; a successful `onopen` resets
the counter to zero. -/
theorem c3_reconnect_backoff (n : Nat) (st st2 st3 : TransportState)
    (h1 : 1 ≤ n) (h2 : n ≤ maxReconnectAttempts)
    (h3 : st.reconnectAttempts = n - 1)
    (h4 : maxReconnectAttempts ≤ st2.reconnectAttempts) :
    (attemptReconnect st).scheduledDelay = some (2000 * n) ∧
    (attemptReconnect st).state.reconnectAttempts = n ∧
    (attemptReconnect st).fatal = false ∧
    (attemptReconnect st2).scheduledDelay = none ∧
    (attemptReconnect st2).state = st2 ∧
    (onOpen st3).reconnectAttempts = 0 := by
  have hlt : st.reconnectAttempts < maxReconnectAttempts := by
    unfold maxReconnectAttempts at h2 ⊢; omega
  have hnlt : ¬ st2.reconnectAttempts < maxReconnectAttempts := by omega
  have hn : st.reconnectAttempts + 1 = n := by omega
  refine ⟨?_, ?_, ?_, ?_, ?_, rfl⟩ <;>
    simp [attemptReconnect, hlt, hnlt, hn]

/-- Witness for C3: attempt 3 from a two-attempt state is scheduled after
6000 ms; a five-attempt state schedules nothing; `onOpen` resets. -/
theorem c3_reconnect_backoff_witness :
    (attemptReconnect ⟨2, false⟩).scheduledDelay = some (2000 * 3) ∧
    (attemptReconnect ⟨2, false⟩).state.reconnectAttempts = 3 ∧
    (attemptReconnect ⟨2, false⟩).fatal = false ∧
    (attemptReconnect ⟨5, false⟩).scheduledDelay = none ∧
    (attemptReconnect ⟨5, false⟩).state = ⟨5, false⟩ ∧
    (onOpen ⟨4, false⟩).reconnectAttempts = 0 :=
  c3_reconnect_backoff 3 ⟨2, false⟩ ⟨5, false⟩ ⟨4, false⟩
    (by decide) (by decide) rfl (by decide)

/-- C4: when every reconnection attempt fails, the run after an unexpected
closure schedules exactly the five backoff delays and surfaces the fatal
max-attempts condition exactly once, after which nothing further is
scheduled (for any surplus fuel `k`); and while disconnected, a send fails
fast with `notConnected` and the state — including the outbound log — is
unchanged, so nothing is buffered for later delivery. -/
theorem c4_exhaustion_and_failfast (k : Nat) (st : ProcSendState) (blob : Blob)
    (vst : Option Int) (now : Int) (h : st.isConnected = false) :
    (failTrace (k + 6) ⟨0, true⟩).countP (fun o => o.fatal) = 1 ∧
    (failTrace (k + 6) ⟨0, true⟩).filterMap (fun o => o.scheduledDelay)
      = [2000, 4000, 6000, 8000, 10000] ∧
    processorSend st blob vst now = (st, Except.error SendError.notConnected) := by
  refine ⟨rfl, rfl, ?_⟩
  simp [processorSend, sendAudioToServerSeg, h]

/-- Witness for C4 at a concrete disconnected send state and zero surplus
fuel. -/
theorem c4_exhaustion_and_failfast_witness :
    (failTrace 6 ⟨0, true⟩).countP (fun o => o.fatal) = 1 ∧
    (failTrace 6 ⟨0, true⟩).filterMap (fun o => o.scheduledDelay)
      = [2000, 4000, 6000, 8000, 10000] ∧
    processorSend ⟨false, []⟩ ⟨9000, "audio/webm", "d"⟩ (some 5000) 10000
      = (⟨false, []⟩, Except.error SendError.notConnected) :=
  c4_exhaustion_and_failfast 0 ⟨false, []⟩ ⟨9000, "audio/webm", "d"⟩ (some 5000) 10000 rfl

/-- Helper for C6: along any run whose silent samples all arrive within
`silenceDuration` of the last sound, the silence timer is never newly set, so
no segment emission is ever scheduled. -/
theorem vadRun_no_schedule (samples : List AudioSample) :
    ∀ st : VadState, gapsShort st samples = true → (vadRun st samples).2 = 0 := by
  induction samples with
  | nil => intro st _; rfl
  | cons s rest ih =>
    intro st h
    rw [gapsShort, Bool.and_eq_true] at h
    obtain ⟨h1, h2⟩ := h
    have hrec := ih (checkAudioLevel st s) h2
    by_cases hv : silenceThreshold < s.level
    · have hst2 : (checkAudioLevel st s).silenceTimerPending = false := by
        simp [checkAudioLevel, hv]
      simp [vadRun, hrec, hst2]
    · have hle : s.level ≤ silenceThreshold := not_lt.mp hv
      have hgap : s.time - st.lastSoundTime ≤ silenceDuration := by
        rw [if_pos hle] at h1
        exact of_decide_eq_true h1
      have hst2 : checkAudioLevel st s = st := by
        have hng : ¬ (silenceDuration < s.time - st.lastSoundTime
            ∧ st.silenceTimerPending = false ∧ st.isProcessingSegment = false) := by
          intro hc
          exact absurd hgap (not_le.mpr hc.1)
        simp [checkAudioLevel, hv, hng]
      rw [hst2] at hrec
      rw [vadRun]
      simp [hst2, hrec]

/-- C6: a voiced sample cancels any pending silence timer; a run whose silent
gaps all stay within `silenceDuration` never schedules a segment emission
(a brief pause does not split an utterance); and a silent sample whose gap
exceeds `silenceDuration`, with no timer pending and no segment being
processed, does schedule the emission. -/
theorem c6_silence_window (st1 st3 : VadState) (s1 s3 : AudioSample)
    (samples : List AudioSample) (st2 : VadState)
    (h1 : silenceThreshold < s1.level)
    (h2 : gapsShort st2 samples = true)
    (h3 : s3.level ≤ silenceThreshold)
    (h4 : silenceDuration < s3.time - st3.lastSoundTime)
    (h5 : st3.silenceTimerPending = false)
    (h6 : st3.isProcessingSegment = false) :
    (checkAudioLevel st1 s1).silenceTimerPending = false ∧
    (vadRun st2 samples).2 = 0 ∧
    (checkAudioLevel st3 s3).silenceTimerPending = true := by
  refine ⟨?_, vadRun_no_schedule samples st2 h2, ?_⟩
  · simp [checkAudioLevel, h1]
  · have hnv : ¬ silenceThreshold < s3.level := not_lt.mpr h3
    simp [checkAudioLevel, hnv, h4, h5, h6]

/-- Witness for C6: a voiced sample at level one half, an 800 ms pause that
schedules nothing, and a 2400 ms silence that schedules the send. -/
theorem c6_silence_window_witness :
    (checkAudioLevel ⟨0, true, false⟩ ⟨100, 1/2⟩).silenceTimerPending = false ∧
    (vadRun ⟨0, false, false⟩ [⟨100, 1/2⟩, ⟨900, 0⟩]).2 = 0 ∧
    (checkAudioLevel ⟨100, false, false⟩ ⟨2500, 0⟩).silenceTimerPending = true :=
  c6_silence_window ⟨0, true, false⟩ ⟨100, false, false⟩ ⟨100, 1/2⟩ ⟨2500, 0⟩
    [⟨100, 1/2⟩, ⟨900, 0⟩] ⟨0, false, false⟩
    (by norm_num [silenceThreshold])
    (by norm_num [gapsShort, checkAudioLevel, silenceThreshold, silenceDuration])
    (by norm_num [silenceThreshold])
    (by norm_num [silenceDuration]) rfl rfl

/-- Helper for C8: inside the window the clamp is inactive and the score is
exactly the linear decay. -/
theorem correlationScore_eq (b t w : ℚ) (hw : 0 < w) (h : |t - b| ≤ w) :
    correlationScore b t w = 1 - |t - b| / w := by
  have h0 : (0 : ℚ) ≤ |t - b| := abs_nonneg _
  have hd1 : |t - b| / w ≤ 1 := (div_le_one hw).mpr h
  have hd0 : (0 : ℚ) ≤ |t - b| / w := div_nonneg h0 hw.le
  unfold correlationScore
  rw [min_eq_right (by linarith), max_eq_right (by linarith)]

/-- C8: inside the window the correlation score equals `1 - (abs dt / window)`,
lies in the closed interval from 0 to 1, strictly decreases as the temporal
distance grows, and is symmetric in which side came first. -/
theorem c8_correlation_score (bTime tTime b2 t2 window : ℚ)
    (hw : 0 < window)
    (h : |tTime - bTime| ≤ window)
    (h2 : |t2 - b2| ≤ window)
    (hlt : |tTime - bTime| < |t2 - b2|) :
    correlationScore bTime tTime window = 1 - |tTime - bTime| / window ∧
    0 ≤ correlationScore bTime tTime window ∧
    correlationScore bTime tTime window ≤ 1 ∧
    correlationScore b2 t2 window < correlationScore bTime tTime window ∧
    correlationScore bTime tTime window = correlationScore tTime bTime window := by
  have he1 := correlationScore_eq bTime tTime window hw h
  have he2 := correlationScore_eq b2 t2 window hw h2
  have hd1 : |tTime - bTime| / window ≤ 1 := (div_le_one hw).mpr h
  have hd0 : (0 : ℚ) ≤ |tTime - bTime| / window :=
    div_nonneg (abs_nonneg _) hw.le
  have hmono : |tTime - bTime| / window < |t2 - b2| / window := by
    rw [div_eq_mul_inv, div_eq_mul_inv]
    exact mul_lt_mul_of_pos_right hlt (inv_pos.mpr hw)
  refine ⟨he1, by linarith, by linarith, by rw [he1, he2]; linarith, ?_⟩
  unfold correlationScore
  rw [abs_sub_comm]

/-- Witness for C8: the spec's own scenario — browser click at 10.0 s, a
transcription at 9.2 s, window 5 s — against a farther pair at distance 4 s. -/
theorem c8_correlation_score_witness :
    correlationScore 10 (46/5) 5 = 1 - |(46 : ℚ)/5 - 10| / 5 ∧
    0 ≤ correlationScore 10 (46/5) 5 ∧
    correlationScore 10 (46/5) 5 ≤ 1 ∧
    correlationScore 0 4 5 < correlationScore 10 (46/5) 5 ∧
    correlationScore 10 (46/5) 5 = correlationScore (46/5) 10 5 :=
  c8_correlation_score 10 (46/5) 0 4 5 (by norm_num)
    (by rw [abs_of_nonpos (by norm_num)]; norm_num)
    (by rw [abs_of_nonneg (by norm_num)]; norm_num)
    (by rw [abs_of_nonpos (by norm_num), abs_of_nonneg (by norm_num)]; norm_num)

/-- C9: for every nonempty frame of 8-bit frequency-bin values, the computed
normalized level — the mean of the bins divided by 255 — lies in the closed
interval from 0 to 1. -/
theorem c9_normalized_level_bounds (bins : List Nat)
    (hne : bins ≠ []) (hb : ∀ b ∈ bins, b ≤ 255) :
    0 ≤ computeNormalizedLevel bins ∧ computeNormalizedLevel bins ≤ 1 := by
  have hlen : 0 < bins.length := List.length_pos.mpr hne
  have hlenq : (0 : ℚ) < (bins.length : ℚ) := by exact_mod_cast hlen
  have hsum : bins.sum ≤ bins.length * 255 := by
    have hs := List.sum_le_card_nsmul bins 255 hb
    simpa using hs
  have hsumq : (bins.sum : ℚ) ≤ (bins.length : ℚ) * 255 := by exact_mod_cast hsum
  constructor
  · unfold computeNormalizedLevel
    positivity
  · unfold computeNormalizedLevel
    rw [div_le_one (by norm_num : (0 : ℚ) < 255), div_le_iff₀ hlenq]
    linarith

/-- Witness for C9 at a concrete three-bin frame. -/
theorem c9_normalized_level_bounds_witness :
    0 ≤ computeNormalizedLevel [0, 255, 30] ∧ computeNormalizedLevel [0, 255, 30] ≤ 1 :=
  c9_normalized_level_bounds [0, 255, 30] (by decide) (by decide)

end VoiceSpec
